import Mathlib

/-!
Shallow embedding of `src/simple_rl/tasks/taxi/AugmentedTaxi2OOMDPClass.py`
(class `AugmentedTaxi2OOMDP`), the object-oriented Taxi MDP: state data model,
action-effect functions, the transition function, and the reward-feature
computation.

Modelling conventions.

The Python state object (`AugmentedTaxiState`) stores objects as attribute
dictionaries; here each object class is a fixed record with integer attributes.
The agent, the ordered passenger list and the ordered hotswap-station list are
the mutable state; walls, tolls, traffic cells and fuel stations are static
configuration held by the MDP record.

Python mutates objects in place and uses `copy.deepcopy` for fresh states.  The
embedding is pure, so mutation is made explicit: `_taxi_transition_func` returns
a pair `(caller, result)` where `caller` is the value of the object the caller
passed in after the call returns (the Python code mutates it through
`decrement_fuel`, and through every post-dispatch write when the returned state
aliases the input), and `result` is `none` when `_error_check` raises, or
`some (next_state, fresh)` where `fresh = true` exactly when `next_state` is a
freshly deep-copied object and `fresh = false` when it is the very object the
caller passed in (Python returns `state` itself on the goal short-circuit, on a
wall-blocked move, and on the blocked-navigation fall-through branch).

The helper module `simple_rl/tasks/taxi/taxi_helpers.py`, the state class and
the OOMDP base class are part of this repository but are not under `src/`;
definitions taken from them are marked `Modelled from the spec:` and follow the
wording of the specification.  Probabilities are rationals; the two uniform
draws consumed by a transition are passed in explicitly as `u1` (base slip) and
`u2` (traffic).
-/

/-- Agent object: attributes `x`, `y`, `has_passenger` and the optional `fuel`
attribute (present exactly when fuel tracking is active). -/
structure TaxiAgent where
  x : ℤ
  y : ℤ
  has_passenger : ℤ
  fuel : Option ℤ
deriving DecidableEq

/-- Passenger object: position, destination and the `in_taxi` attribute. -/
structure TaxiPassenger where
  x : ℤ
  y : ℤ
  dest_x : ℤ
  dest_y : ℤ
  in_taxi : ℤ
deriving DecidableEq

/-- Hotswap-station object: a grid cell. -/
structure TaxiHotswapStation where
  x : ℤ
  y : ℤ
deriving DecidableEq

/-- Mutable world state: the `objects` dictionary of the Python state restricted
to its mutable classes (`agent`, `passenger`, `hotswap_station`) plus the
terminal and goal flags of the base `State` class. -/
structure AugmentedTaxiState where
  agent : TaxiAgent
  passengers : List TaxiPassenger
  hotswap_stations : List TaxiHotswapStation
  is_terminal : Bool
  is_goal : Bool
deriving DecidableEq

/-- Modelled from the spec: a wall segment separating two adjacent cells
(construction input `walls`, consumed by the wall-between query). -/
structure TaxiWall where
  x1 : ℤ
  y1 : ℤ
  x2 : ℤ
  y2 : ℤ
deriving DecidableEq

/-- Toll object: a grid cell that penalizes when vacated. -/
structure TaxiToll where
  x : ℤ
  y : ℤ
deriving DecidableEq

/-- Traffic object: a grid cell with a slip probability. -/
structure TaxiTraffic where
  x : ℤ
  y : ℤ
  prob : ℚ
deriving DecidableEq

/-- Fuel-station object: a grid cell with a maximum fuel capacity. -/
structure TaxiFuelStation where
  x : ℤ
  y : ℤ
  max_fuel_capacity : ℤ
deriving DecidableEq

/-- Static configuration of the MDP instance (lines 34-70 of the source):
grid bounds, static object lists, the base slip probability and the reward
weight vector (default `[[2, -0.4, -0.5]]`). -/
structure AugmentedTaxi2OOMDP where
  width : ℤ
  height : ℤ
  walls : List TaxiWall
  tolls : List TaxiToll
  traffic_cells : List TaxiTraffic
  fuel_stations : List TaxiFuelStation
  slip_prob : ℚ
  weights : ℚ × ℚ × ℚ
deriving DecidableEq

/-- Action set without refuel (line 29 of the source). -/
def BASE_ACTIONS : List String := ["up", "down", "left", "right", "pickup", "dropoff"]

/-- Action set with refuel (line 30 of the source). -/
def AUGMENTED_ACTIONS : List String :=
  ["up", "down", "left", "right", "pickup", "dropoff", "refuel"]

/-- Modelled from the spec: the state class (not under `src/`) reports fuel
tracking as active exactly when the agent carries a fuel attribute. -/
def track_fuel (s : AugmentedTaxiState) : Bool :=
  s.agent.fuel.isSome

/-- Modelled from the spec: the state class decrements the fuel attribute by the
fixed per-step amount (one unit here) on every transition. -/
def decrement_fuel (s : AugmentedTaxiState) : AugmentedTaxiState :=
  { s with agent := { s.agent with fuel := s.agent.fuel.map (fun f => f - 1) } }

/-- Modelled from the spec: `taxi_helpers.is_taxi_goal_state` (not under `src/`)
holds iff every passenger satisfies `(x, y) = (dest_x, dest_y)` and
`in_taxi = 0`. -/
def is_taxi_goal_state (s : AugmentedTaxiState) : Bool :=
  s.passengers.all (fun p => decide (p.x = p.dest_x ∧ p.y = p.dest_y ∧ p.in_taxi = 0))

/-- Modelled from the spec: `taxi_helpers.at_traffic`, the traffic-at query
returning presence and the slip probability of the first matching cell. -/
def at_traffic (m : AugmentedTaxi2OOMDP) (x y : ℤ) : Bool × ℚ :=
  match m.traffic_cells.find? (fun t => decide (t.x = x ∧ t.y = y)) with
  | some t => (true, t.prob)
  | none => (false, 0)

/-- Modelled from the spec: `taxi_helpers.at_fuel_station`, the fuel-station-at
query returning presence and the capacity of the first matching station. -/
def at_fuel_station (m : AugmentedTaxi2OOMDP) (x y : ℤ) : Bool × ℤ :=
  match m.fuel_stations.find? (fun f => decide (f.x = x ∧ f.y = y)) with
  | some f => (true, f.max_fuel_capacity)
  | none => (false, 0)

/-- Modelled from the spec: a wall segment separates two adjacent cells in
either orientation. -/
def wall_separates (w : TaxiWall) (a b : ℤ × ℤ) : Bool :=
  decide ((w.x1 = a.1 ∧ w.y1 = a.2 ∧ w.x2 = b.1 ∧ w.y2 = b.2) ∨
          (w.x1 = b.1 ∧ w.y1 = b.2 ∧ w.x2 = a.1 ∧ w.y2 = a.2))

/-- Modelled from the spec: `taxi_helpers._is_wall_in_the_way` holds iff some
wall segment separates the cell occupied by the agent from the destination cell
`(agent.x + dx, agent.y + dy)`. -/
def _is_wall_in_the_way (m : AugmentedTaxi2OOMDP) (s : AugmentedTaxiState)
    (dx dy : ℤ) : Bool :=
  m.walls.any (fun w =>
    wall_separates w (s.agent.x, s.agent.y) (s.agent.x + dx, s.agent.y + dy))

/-- Modelled from the spec: `taxi_helpers._moved_off_of_hotswap_station` scans
the hotswap stations of `s` in list order; if the agent occupies the first
matching station in `s` and is no longer co-located with that same station in
`next`, it returns true together with the index of that station. -/
def _moved_off_of_hotswap_station (s next : AugmentedTaxiState) : Bool × ℕ :=
  match s.hotswap_stations.findIdx? (fun h => decide (h.x = s.agent.x ∧ h.y = s.agent.y)) with
  | some i =>
      if next.agent.x = s.agent.x ∧ next.agent.y = s.agent.y then (false, 0) else (true, i)
  | none => (false, 0)

/-- Modelled from the spec: `taxi_helpers._moved_off_of_toll` holds iff the
agent occupies a toll cell in `s` and is no longer co-located with that cell in
`next` (charged on exit from a toll cell, not entry). -/
def _moved_off_of_toll (m : AugmentedTaxi2OOMDP) (s next : AugmentedTaxiState) : Bool :=
  match m.tolls.findIdx? (fun t => decide (t.x = s.agent.x ∧ t.y = s.agent.y)) with
  | some _ => decide (¬(next.agent.x = s.agent.x ∧ next.agent.y = s.agent.y))
  | none => false

/-- Modelled from the spec: `taxi_helpers._move_pass_in_taxi` translates the
coordinates of each passenger with `in_taxi = 1` by `(dx, dy)`. -/
def _move_pass_in_taxi (s : AugmentedTaxiState) (dx dy : ℤ) : AugmentedTaxiState :=
  { s with passengers := s.passengers.map (fun p =>
      if p.in_taxi = 1 then { p with x := p.x + dx, y := p.y + dy } else p) }

/-- Lines 303-328 of the source (`move_agent`): if a wall is in the way, the
input object itself is returned (`return state`, flag `false`); otherwise a
deep copy is made (flag `true`), the agent is translated by `(dx, dy)` and any
passenger in the taxi moves with it. -/
def move_agent (m : AugmentedTaxi2OOMDP) (s : AugmentedTaxiState)
    (dx dy : ℤ) : AugmentedTaxiState × Bool :=
  if _is_wall_in_the_way m s dx dy then
    (s, false)
  else
    (_move_pass_in_taxi
      { s with agent := { s.agent with x := s.agent.x + dx, y := s.agent.y + dy } } dx dy,
     true)

/-- Co-location of the agent with a passenger, the guard of the pickup loop
(line 347 of the source). -/
def pass_at_agent (a : TaxiAgent) (p : TaxiPassenger) : Bool :=
  decide (a.x = p.x ∧ a.y = p.y)

/-- Lines 330-352 of the source (`agent_pickup`): on a deep copy, when
`has_passenger = 0`, the loop sets `in_taxi := 1` on every co-located passenger
(the loop has no break and does not test `in_taxi`) and writes
`has_passenger := 1` whenever at least one passenger is co-located.  The loop
only writes `has_passenger` and `in_taxi`, and its co-location guard reads the
unchanged agent coordinates, so the loop is equivalent to this map. -/
def agent_pickup (s : AugmentedTaxiState) : AugmentedTaxiState :=
  if s.agent.has_passenger = 0 then
    let has : ℤ :=
      if s.passengers.any (fun p => pass_at_agent s.agent p) then 1
      else s.agent.has_passenger
    { s with
      agent := { s.agent with has_passenger := has },
      passengers := s.passengers.map (fun p =>
        if pass_at_agent s.agent p then { p with in_taxi := 1 } else p) }
  else s

/-- Lines 354-378 of the source (`agent_dropoff`): on a deep copy, when
`has_passenger = 1`, the loop sets `in_taxi := 0` on every passenger with
`in_taxi = 1` and writes `has_passenger := 0` whenever at least one such
passenger exists (the `has_passenger` write sits inside the loop body). -/
def agent_dropoff (s : AugmentedTaxiState) : AugmentedTaxiState :=
  if s.agent.has_passenger = 1 then
    let has : ℤ :=
      if s.passengers.any (fun p => decide (p.in_taxi = 1)) then 0
      else s.agent.has_passenger
    { s with
      agent := { s.agent with has_passenger := has },
      passengers := s.passengers.map (fun p =>
        if p.in_taxi = 1 then { p with in_taxi := 0 } else p) }
  else s

/-- Lines 380-398 of the source (`agent_refuel`): on a deep copy, if the agent
stands on a fuel station, the fuel attribute is set to the capacity of that
station. -/
def agent_refuel (m : AugmentedTaxi2OOMDP) (s : AugmentedTaxiState) : AugmentedTaxiState :=
  let r := at_fuel_station m s.agent.x s.agent.y
  if r.1 then { s with agent := { s.agent with fuel := some r.2 } } else s

/-- Lines 439-444 of the source (`_error_check`): the action must belong to
`AUGMENTED_ACTIONS` when fuel tracking is active and to `BASE_ACTIONS`
otherwise; a failing check raises `ValueError`.  The additional `isinstance`
test on the state (lines 446-447) always passes in this typed embedding. -/
def _error_check_ok (s : AugmentedTaxiState) (a : String) : Bool :=
  if track_fuel s then decide (a ∈ AUGMENTED_ACTIONS) else decide (a ∈ BASE_ACTIONS)

/-- The action set accepted by `_error_check` for a given state. -/
def active_actions (s : AugmentedTaxiState) : List String :=
  if track_fuel s then AUGMENTED_ACTIONS else BASE_ACTIONS

/-- Lines 186-196 of the source: the stuck draw.  `stuck` is set when
`slip_prob > u1`; when the agent stands on a traffic cell with probability `p`,
`stuck` is additionally set when `p > u2`. -/
def stuck_outcome (m : AugmentedTaxi2OOMDP) (s : AugmentedTaxiState) (u1 u2 : ℚ) : Bool :=
  let stuck := decide (u1 < m.slip_prob)
  let tr := at_traffic m s.agent.x s.agent.y
  if tr.1 then (if u2 < tr.2 then true else stuck) else stuck

/-- Lines 198-200 of the source: the fuel decrement applied in place to the
input state before dispatch, when fuel tracking is active. -/
def fuel_stage (s : AugmentedTaxiState) : AugmentedTaxiState :=
  if track_fuel s then decrement_fuel s else s

/-- Lines 202-218 of the source: the dispatch chain.  Navigation actions run
only when not stuck and when the destination stays inside the grid in that
direction; pickup, dropoff and refuel dispatch unconditionally; everything else
falls through to the input object itself.  The boolean records whether the
branch produced a fresh deep copy. -/
def taxi_dispatch (m : AugmentedTaxi2OOMDP) (s : AugmentedTaxiState) (a : String)
    (stuck : Bool) : AugmentedTaxiState × Bool :=
  if a = "up" ∧ s.agent.y < m.height ∧ stuck = false then move_agent m s 0 1
  else if a = "down" ∧ 1 < s.agent.y ∧ stuck = false then move_agent m s 0 (-1)
  else if a = "right" ∧ s.agent.x < m.width ∧ stuck = false then move_agent m s 1 0
  else if a = "left" ∧ 1 < s.agent.x ∧ stuck = false then move_agent m s (-1) 0
  else if a = "dropoff" then (agent_dropoff s, true)
  else if a = "pickup" then (agent_pickup s, true)
  else if a = "refuel" then (agent_refuel m s, true)
  else (s, false)

/-- Lines 220-225 of the source: if the agent moved off of a hotswap station,
delete that station (by index) from the station list of the next state. -/
def hotswap_stage (sPrev next : AugmentedTaxiState) : AugmentedTaxiState :=
  let mo := _moved_off_of_hotswap_station sPrev next
  if mo.1 then
    { next with hotswap_stations := next.hotswap_stations.eraseIdx mo.2 }
  else next

/-- Lines 227-231 of the source: mark the next state terminal and goal when the
goal predicate holds on it. -/
def goal_stage (n : AugmentedTaxiState) : AugmentedTaxiState :=
  if is_taxi_goal_state n then { n with is_terminal := true, is_goal := true } else n

/-- Lines 173-237 of the source (`_taxi_transition_func`).  Returns
`(caller, result)`: `caller` is the value of the object the caller passed in
after the call (Python mutates it in place through `decrement_fuel`, and
through all post-dispatch writes when the dispatch returned the input object
itself); `result` is `none` when `_error_check` raises, and otherwise
`some (next_state, fresh)` where `fresh` records whether `next_state` is a
fresh deep copy (`true`) or the very input object (`false`).  The final
`next_state.update()` of the base state class recomputes derived views only and
is the identity in this embedding. -/
def _taxi_transition_func (m : AugmentedTaxi2OOMDP) (s : AugmentedTaxiState)
    (a : String) (u1 u2 : ℚ) : AugmentedTaxiState × Option (AugmentedTaxiState × Bool) :=
  if _error_check_ok s a then
    if is_taxi_goal_state s then (s, some (s, false))
    else
      let stuck := stuck_outcome m s u1 u2
      let s1 := fuel_stage s
      let d := taxi_dispatch m s1 a stuck
      let n := goal_stage (hotswap_stage s1 d.1)
      if d.2 then (s1, some (n, true)) else (n, some (n, false))
  else (s, none)

/-- Lines 118-152 of the source (`compute_reward_features`): the triple
`(toll_flag, hotswap_flag, step_cost_flag)`.  The toll flag is guarded by the
configuration having tolls, the hotswap flag by the state having hotswap
stations; the step-cost flag is always one.  The action argument is unused by
the source as well. -/
def compute_reward_features (m : AugmentedTaxi2OOMDP) (s : AugmentedTaxiState)
    (_a : String) (next : AugmentedTaxiState) : ℤ × ℤ × ℤ :=
  let step_cost_flag : ℤ := 1
  let toll_flag : ℤ :=
    if m.tolls.length ≠ 0 then (if _moved_off_of_toll m s next then 1 else 0) else 0
  let hotswap_flag : ℤ :=
    if s.hotswap_stations.length ≠ 0 then
      (if (_moved_off_of_hotswap_station s next).1 then 1 else 0)
    else 0
  (toll_flag, hotswap_flag, step_cost_flag)

/-- Lines 103-116 of the source (`_taxi_reward_func`): after `_error_check`,
the scalar reward is the dot product of the weight vector with the
reward-feature vector; `none` models the `ValueError` raise. -/
def _taxi_reward_func (m : AugmentedTaxi2OOMDP) (s : AugmentedTaxiState)
    (a : String) (next : AugmentedTaxiState) : Option ℚ :=
  if _error_check_ok s a then
    let f := compute_reward_features m s a next
    some (m.weights.1 * (f.1 : ℚ) + m.weights.2.1 * (f.2.1 : ℚ) + m.weights.2.2 * (f.2.2 : ℚ))
  else none

/-- Reachability along repeated transition calls: the reflexive-transitive
closure of taking the state returned by a successful `_taxi_transition_func`
call with any action and any random draws. -/
inductive Reachable (m : AugmentedTaxi2OOMDP) : AugmentedTaxiState → AugmentedTaxiState → Prop
  | refl (s : AugmentedTaxiState) : Reachable m s s
  | step {s t r : AugmentedTaxiState} {a : String} {u1 u2 : ℚ} {b : Bool} :
      Reachable m s t → (_taxi_transition_func m t a u1 u2).2 = some (r, b) →
      Reachable m s r

/-- The bounds invariant on the agent coordinates: inside
`[1, width] × [1, height]`. -/
def agent_in_bounds (m : AugmentedTaxi2OOMDP) (s : AugmentedTaxiState) : Prop :=
  1 ≤ s.agent.x ∧ s.agent.x ≤ m.width ∧ 1 ≤ s.agent.y ∧ s.agent.y ≤ m.height

/-- Auxiliary inductive invariant for single-passenger configurations: there is
exactly one passenger and `has_passenger` mirrors its `in_taxi` attribute. -/
def single_pass_ok (s : AugmentedTaxiState) : Prop :=
  ∃ p, s.passengers = [p] ∧
    ((p.in_taxi = 1 ∧ s.agent.has_passenger = 1) ∨
     (p.in_taxi ≠ 1 ∧ s.agent.has_passenger = 0))

/-- Concrete 3 by 3 configuration with no walls, tolls, traffic or fuel stations
and zero slip probability, used to evaluate claims on explicit inputs. -/
def exM : AugmentedTaxi2OOMDP := ⟨3, 3, [], [], [], [], 0, (2, -1, -1)⟩

/-- Same grid with slip probability one (every base draw gets stuck). -/
def exM_slip : AugmentedTaxi2OOMDP := ⟨3, 3, [], [], [], [], 1, (2, -1, -1)⟩

/-- Fuel-tracking state: agent at `(1, 1)` with five units of fuel, one
undelivered passenger. -/
def exS_fuel : AugmentedTaxiState :=
  ⟨⟨1, 1, 0, some 5⟩, [⟨2, 2, 3, 3, 0⟩], [], false, false⟩

/-- State whose `is_terminal` flag is raised although its passenger is not at
the destination. -/
def exS_term : AugmentedTaxiState :=
  ⟨⟨1, 1, 0, none⟩, [⟨1, 1, 3, 3, 0⟩], [], true, false⟩

/-- State satisfying the goal condition (passenger delivered and released)
whose flags are still down. -/
def exS_goal_cond : AugmentedTaxiState :=
  ⟨⟨3, 3, 0, none⟩, [⟨3, 3, 3, 3, 0⟩], [], false, false⟩

/-- State with two passengers co-located with the agent, both out of the
taxi. -/
def exS_two_pass : AugmentedTaxiState :=
  ⟨⟨1, 1, 0, none⟩, [⟨1, 1, 3, 3, 0⟩, ⟨1, 1, 2, 2, 0⟩], [], false, false⟩

/-- State with `has_passenger = 1` although no passenger has `in_taxi = 1`. -/
def exS_drop : AugmentedTaxiState :=
  ⟨⟨1, 1, 1, none⟩, [⟨2, 2, 3, 3, 0⟩], [], false, false⟩

/-- State standing on a hotswap station at `(1, 1)`. -/
def exS_hot : AugmentedTaxiState :=
  ⟨⟨1, 1, 0, none⟩, [⟨2, 2, 3, 3, 0⟩], [⟨1, 1⟩], false, false⟩

/-- Plain non-goal state with one undelivered passenger and no fuel. -/
def exS_plain : AugmentedTaxiState :=
  ⟨⟨1, 1, 0, none⟩, [⟨2, 2, 3, 3, 0⟩], [], false, false⟩

/-- The state reached from `exS_hot` by the `up` action: the agent vacated the
hotswap station at `(1, 1)`, which was removed. -/
def exS_hot_next : AugmentedTaxiState :=
  ⟨⟨1, 2, 0, none⟩, [⟨2, 2, 3, 3, 0⟩], [], false, false⟩

/-- The 3 by 3 grid with one wall segment between `(1, 1)` and `(1, 2)`. -/
def exM_wall : AugmentedTaxi2OOMDP :=
  ⟨3, 3, [⟨1, 1, 1, 2⟩], [], [], [], 0, (2, -1, -1)⟩

/-! Frame lemmas for the stages of the transition pipeline. -/

@[simp] lemma fuel_stage_agent_x (s : AugmentedTaxiState) :
    (fuel_stage s).agent.x = s.agent.x := by
  unfold fuel_stage decrement_fuel; split <;> rfl

@[simp] lemma fuel_stage_agent_y (s : AugmentedTaxiState) :
    (fuel_stage s).agent.y = s.agent.y := by
  unfold fuel_stage decrement_fuel; split <;> rfl

@[simp] lemma fuel_stage_agent_has (s : AugmentedTaxiState) :
    (fuel_stage s).agent.has_passenger = s.agent.has_passenger := by
  unfold fuel_stage decrement_fuel; split <;> rfl

@[simp] lemma fuel_stage_passengers (s : AugmentedTaxiState) :
    (fuel_stage s).passengers = s.passengers := by
  unfold fuel_stage decrement_fuel; split <;> rfl

@[simp] lemma fuel_stage_hotswap (s : AugmentedTaxiState) :
    (fuel_stage s).hotswap_stations = s.hotswap_stations := by
  unfold fuel_stage decrement_fuel; split <;> rfl

@[simp] lemma fuel_stage_terminal (s : AugmentedTaxiState) :
    (fuel_stage s).is_terminal = s.is_terminal := by
  unfold fuel_stage decrement_fuel; split <;> rfl

@[simp] lemma fuel_stage_goal_flag (s : AugmentedTaxiState) :
    (fuel_stage s).is_goal = s.is_goal := by
  unfold fuel_stage decrement_fuel; split <;> rfl

lemma is_taxi_goal_congr {s t : AugmentedTaxiState} (h : s.passengers = t.passengers) :
    is_taxi_goal_state s = is_taxi_goal_state t := by
  unfold is_taxi_goal_state; rw [h]

@[simp] lemma fuel_stage_goal_pred (s : AugmentedTaxiState) :
    is_taxi_goal_state (fuel_stage s) = is_taxi_goal_state s :=
  is_taxi_goal_congr (by simp)

@[simp] lemma move_agent_hotswap (m : AugmentedTaxi2OOMDP) (s : AugmentedTaxiState) (dx dy : ℤ) :
    (move_agent m s dx dy).1.hotswap_stations = s.hotswap_stations := by
  unfold move_agent _move_pass_in_taxi; split <;> rfl

@[simp] lemma move_agent_terminal (m : AugmentedTaxi2OOMDP) (s : AugmentedTaxiState) (dx dy : ℤ) :
    (move_agent m s dx dy).1.is_terminal = s.is_terminal := by
  unfold move_agent _move_pass_in_taxi; split <;> rfl

@[simp] lemma move_agent_goal_flag (m : AugmentedTaxi2OOMDP) (s : AugmentedTaxiState) (dx dy : ℤ) :
    (move_agent m s dx dy).1.is_goal = s.is_goal := by
  unfold move_agent _move_pass_in_taxi; split <;> rfl

@[simp] lemma move_agent_has (m : AugmentedTaxi2OOMDP) (s : AugmentedTaxiState) (dx dy : ℤ) :
    (move_agent m s dx dy).1.agent.has_passenger = s.agent.has_passenger := by
  unfold move_agent _move_pass_in_taxi; split <;> rfl

@[simp] lemma move_agent_fuel (m : AugmentedTaxi2OOMDP) (s : AugmentedTaxiState) (dx dy : ℤ) :
    (move_agent m s dx dy).1.agent.fuel = s.agent.fuel := by
  unfold move_agent _move_pass_in_taxi; split <;> rfl

lemma move_agent_snd_false {m : AugmentedTaxi2OOMDP} {s : AugmentedTaxiState} {dx dy : ℤ}
    (h : (move_agent m s dx dy).2 = false) : (move_agent m s dx dy).1 = s := by
  by_cases hw : _is_wall_in_the_way m s dx dy = true
  · simp [move_agent, hw]
  · simp [move_agent, hw] at h

@[simp] lemma agent_pickup_hotswap (s : AugmentedTaxiState) :
    (agent_pickup s).hotswap_stations = s.hotswap_stations := by
  unfold agent_pickup; split <;> rfl

@[simp] lemma agent_pickup_terminal (s : AugmentedTaxiState) :
    (agent_pickup s).is_terminal = s.is_terminal := by
  unfold agent_pickup; split <;> rfl

@[simp] lemma agent_pickup_goal_flag (s : AugmentedTaxiState) :
    (agent_pickup s).is_goal = s.is_goal := by
  unfold agent_pickup; split <;> rfl

@[simp] lemma agent_pickup_agent_x (s : AugmentedTaxiState) :
    (agent_pickup s).agent.x = s.agent.x := by
  unfold agent_pickup; split <;> rfl

@[simp] lemma agent_pickup_agent_y (s : AugmentedTaxiState) :
    (agent_pickup s).agent.y = s.agent.y := by
  unfold agent_pickup; split <;> rfl

@[simp] lemma agent_pickup_fuel (s : AugmentedTaxiState) :
    (agent_pickup s).agent.fuel = s.agent.fuel := by
  unfold agent_pickup; split <;> rfl

@[simp] lemma agent_dropoff_hotswap (s : AugmentedTaxiState) :
    (agent_dropoff s).hotswap_stations = s.hotswap_stations := by
  unfold agent_dropoff; split <;> rfl

@[simp] lemma agent_dropoff_terminal (s : AugmentedTaxiState) :
    (agent_dropoff s).is_terminal = s.is_terminal := by
  unfold agent_dropoff; split <;> rfl

@[simp] lemma agent_dropoff_goal_flag (s : AugmentedTaxiState) :
    (agent_dropoff s).is_goal = s.is_goal := by
  unfold agent_dropoff; split <;> rfl

@[simp] lemma agent_dropoff_agent_x (s : AugmentedTaxiState) :
    (agent_dropoff s).agent.x = s.agent.x := by
  unfold agent_dropoff; split <;> rfl

@[simp] lemma agent_dropoff_agent_y (s : AugmentedTaxiState) :
    (agent_dropoff s).agent.y = s.agent.y := by
  unfold agent_dropoff; split <;> rfl

@[simp] lemma agent_dropoff_fuel (s : AugmentedTaxiState) :
    (agent_dropoff s).agent.fuel = s.agent.fuel := by
  unfold agent_dropoff; split <;> rfl

@[simp] lemma agent_refuel_hotswap (m : AugmentedTaxi2OOMDP) (s : AugmentedTaxiState) :
    (agent_refuel m s).hotswap_stations = s.hotswap_stations := by
  simp only [agent_refuel]; split <;> rfl

@[simp] lemma agent_refuel_terminal (m : AugmentedTaxi2OOMDP) (s : AugmentedTaxiState) :
    (agent_refuel m s).is_terminal = s.is_terminal := by
  simp only [agent_refuel]; split <;> rfl

@[simp] lemma agent_refuel_goal_flag (m : AugmentedTaxi2OOMDP) (s : AugmentedTaxiState) :
    (agent_refuel m s).is_goal = s.is_goal := by
  simp only [agent_refuel]; split <;> rfl

@[simp] lemma agent_refuel_agent_x (m : AugmentedTaxi2OOMDP) (s : AugmentedTaxiState) :
    (agent_refuel m s).agent.x = s.agent.x := by
  simp only [agent_refuel]; split <;> rfl

@[simp] lemma agent_refuel_agent_y (m : AugmentedTaxi2OOMDP) (s : AugmentedTaxiState) :
    (agent_refuel m s).agent.y = s.agent.y := by
  simp only [agent_refuel]; split <;> rfl

@[simp] lemma agent_refuel_has (m : AugmentedTaxi2OOMDP) (s : AugmentedTaxiState) :
    (agent_refuel m s).agent.has_passenger = s.agent.has_passenger := by
  simp only [agent_refuel]; split <;> rfl

@[simp] lemma agent_refuel_passengers (m : AugmentedTaxi2OOMDP) (s : AugmentedTaxiState) :
    (agent_refuel m s).passengers = s.passengers := by
  simp only [agent_refuel]; split <;> rfl

lemma taxi_dispatch_hotswap (m : AugmentedTaxi2OOMDP) (s : AugmentedTaxiState)
    (a : String) (st : Bool) :
    (taxi_dispatch m s a st).1.hotswap_stations = s.hotswap_stations := by
  unfold taxi_dispatch; split_ifs <;> simp

lemma taxi_dispatch_terminal (m : AugmentedTaxi2OOMDP) (s : AugmentedTaxiState)
    (a : String) (st : Bool) :
    (taxi_dispatch m s a st).1.is_terminal = s.is_terminal := by
  unfold taxi_dispatch; split_ifs <;> simp

lemma taxi_dispatch_goal_flag (m : AugmentedTaxi2OOMDP) (s : AugmentedTaxiState)
    (a : String) (st : Bool) :
    (taxi_dispatch m s a st).1.is_goal = s.is_goal := by
  unfold taxi_dispatch; split_ifs <;> simp

lemma taxi_dispatch_snd_false {m : AugmentedTaxi2OOMDP} {s : AugmentedTaxiState}
    {a : String} {st : Bool} (h : (taxi_dispatch m s a st).2 = false) :
    (taxi_dispatch m s a st).1 = s := by
  unfold taxi_dispatch at h ⊢
  split_ifs at h ⊢ <;> first
    | exact move_agent_snd_false h
    | rfl

@[simp] lemma hotswap_stage_agent (sp n : AugmentedTaxiState) :
    (hotswap_stage sp n).agent = n.agent := by
  simp only [hotswap_stage]; split <;> rfl

@[simp] lemma hotswap_stage_passengers (sp n : AugmentedTaxiState) :
    (hotswap_stage sp n).passengers = n.passengers := by
  simp only [hotswap_stage]; split <;> rfl

@[simp] lemma hotswap_stage_terminal (sp n : AugmentedTaxiState) :
    (hotswap_stage sp n).is_terminal = n.is_terminal := by
  simp only [hotswap_stage]; split <;> rfl

@[simp] lemma hotswap_stage_goal_flag (sp n : AugmentedTaxiState) :
    (hotswap_stage sp n).is_goal = n.is_goal := by
  simp only [hotswap_stage]; split <;> rfl

@[simp] lemma hotswap_stage_goal_pred (sp n : AugmentedTaxiState) :
    is_taxi_goal_state (hotswap_stage sp n) = is_taxi_goal_state n :=
  is_taxi_goal_congr (by simp)

lemma moved_off_self_false (t : AugmentedTaxiState) :
    (_moved_off_of_hotswap_station t t).1 = false := by
  unfold _moved_off_of_hotswap_station
  rcases hfi : t.hotswap_stations.findIdx?
      (fun h => decide (h.x = t.agent.x ∧ h.y = t.agent.y)) with _ | i <;>
    (rw [hfi]; try dsimp only)
  all_goals first
    | rfl
    | rw [if_pos (⟨rfl, rfl⟩ : t.agent.x = t.agent.x ∧ t.agent.y = t.agent.y)]

lemma hotswap_stage_self (t : AugmentedTaxiState) : hotswap_stage t t = t := by
  simp only [hotswap_stage]
  rw [moved_off_self_false]
  rfl

@[simp] lemma goal_stage_agent (n : AugmentedTaxiState) :
    (goal_stage n).agent = n.agent := by
  unfold goal_stage; split <;> rfl

@[simp] lemma goal_stage_passengers (n : AugmentedTaxiState) :
    (goal_stage n).passengers = n.passengers := by
  unfold goal_stage; split <;> rfl

@[simp] lemma goal_stage_hotswap (n : AugmentedTaxiState) :
    (goal_stage n).hotswap_stations = n.hotswap_stations := by
  unfold goal_stage; split <;> rfl

lemma goal_stage_of_not_goal {n : AugmentedTaxiState}
    (h : is_taxi_goal_state n = false) : goal_stage n = n := by
  unfold goal_stage; rw [h]; rfl

lemma moved_off_congr {s1 s2 n1 n2 : AugmentedTaxiState}
    (hl : s1.hotswap_stations = s2.hotswap_stations)
    (hx : s1.agent.x = s2.agent.x) (hy : s1.agent.y = s2.agent.y)
    (nx : n1.agent.x = n2.agent.x) (ny : n1.agent.y = n2.agent.y) :
    _moved_off_of_hotswap_station s1 n1 = _moved_off_of_hotswap_station s2 n2 := by
  unfold _moved_off_of_hotswap_station
  rw [hl, hx, hy, nx, ny]

lemma error_check_iff (s : AugmentedTaxiState) (a : String) :
    _error_check_ok s a = true ↔ a ∈ active_actions s := by
  unfold _error_check_ok active_actions
  by_cases h : track_fuel s = true <;> simp [h]

lemma transition_result {m : AugmentedTaxi2OOMDP} {s : AugmentedTaxiState}
    {a : String} {u1 u2 : ℚ} {r : AugmentedTaxiState} {b : Bool}
    (h : (_taxi_transition_func m s a u1 u2).2 = some (r, b)) :
    _error_check_ok s a = true ∧
    ((is_taxi_goal_state s = true ∧ r = s ∧ b = false) ∨
     (is_taxi_goal_state s = false ∧
      r = goal_stage (hotswap_stage (fuel_stage s)
        (taxi_dispatch m (fuel_stage s) a (stuck_outcome m s u1 u2)).1))) := by
  unfold _taxi_transition_func at h
  by_cases hec : _error_check_ok s a = true
  · rw [if_pos hec] at h
    refine ⟨hec, ?_⟩
    by_cases hg : is_taxi_goal_state s = true
    · rw [if_pos hg] at h
      simp only [Option.some.injEq, Prod.mk.injEq] at h
      exact Or.inl ⟨hg, h.1.symm, h.2.symm⟩
    · rw [if_neg hg] at h
      simp only at h
      split at h <;>
        · simp only [Option.some.injEq, Prod.mk.injEq] at h
          exact Or.inr ⟨Bool.not_eq_true _ ▸ hg, h.1.symm⟩
  · rw [if_neg hec] at h
    simp at h

lemma move_agent_of_wall {m : AugmentedTaxi2OOMDP} {s : AugmentedTaxiState} {dx dy : ℤ}
    (hw : _is_wall_in_the_way m s dx dy = true) : move_agent m s dx dy = (s, false) := by
  simp [move_agent, hw]

lemma move_agent_x (m : AugmentedTaxi2OOMDP) (s : AugmentedTaxiState) (dx dy : ℤ)
    (hw : _is_wall_in_the_way m s dx dy = false) :
    (move_agent m s dx dy).1.agent.x = s.agent.x + dx := by
  simp [move_agent, hw, _move_pass_in_taxi]

lemma move_agent_y (m : AugmentedTaxi2OOMDP) (s : AugmentedTaxiState) (dx dy : ℤ)
    (hw : _is_wall_in_the_way m s dx dy = false) :
    (move_agent m s dx dy).1.agent.y = s.agent.y + dy := by
  simp [move_agent, hw, _move_pass_in_taxi]

lemma transition_some_of_ok {m : AugmentedTaxi2OOMDP} {s : AugmentedTaxiState}
    {a : String} {u1 u2 : ℚ} (hec : _error_check_ok s a = true) :
    ∃ r b, (_taxi_transition_func m s a u1 u2).2 = some (r, b) := by
  unfold _taxi_transition_func
  rw [if_pos hec]
  by_cases hg : is_taxi_goal_state s = true
  · rw [if_pos hg]; exact ⟨s, false, rfl⟩
  · rw [if_neg hg]
    dsimp only
    by_cases hd : (taxi_dispatch m (fuel_stage s) a (stuck_outcome m s u1 u2)).2 = true
    · rw [if_pos hd]; exact ⟨_, _, rfl⟩
    · rw [if_neg hd]; exact ⟨_, _, rfl⟩

lemma transition_none_of_bad {m : AugmentedTaxi2OOMDP} {s : AugmentedTaxiState}
    {a : String} {u1 u2 : ℚ} (hec : ¬ _error_check_ok s a = true) :
    _taxi_transition_func m s a u1 u2 = (s, none) := by
  unfold _taxi_transition_func
  rw [if_neg hec]

lemma transition_alias {m : AugmentedTaxi2OOMDP} {s : AugmentedTaxiState}
    {a : String} {u1 u2 : ℚ} {r : AugmentedTaxiState}
    (h : (_taxi_transition_func m s a u1 u2).2 = some (r, false)) :
    r = (_taxi_transition_func m s a u1 u2).1 := by
  unfold _taxi_transition_func at h ⊢
  by_cases hec : _error_check_ok s a = true
  · rw [if_pos hec] at h ⊢
    by_cases hg : is_taxi_goal_state s = true
    · rw [if_pos hg] at h ⊢
      simp only [Option.some.injEq, Prod.mk.injEq] at h
      exact h.1.symm
    · rw [if_neg hg] at h ⊢
      dsimp only at h ⊢
      by_cases hd : (taxi_dispatch m (fuel_stage s) a (stuck_outcome m s u1 u2)).2 = true
      · rw [if_pos hd] at h
        simp at h
      · rw [if_neg hd] at h ⊢
        simp only [Option.some.injEq, Prod.mk.injEq] at h
        exact h.1.symm
  · rw [if_neg hec] at h
    simp at h

lemma transition_caller {m : AugmentedTaxi2OOMDP} {s : AugmentedTaxiState}
    {a : String} {u1 u2 : ℚ} (hec : _error_check_ok s a = true)
    (hg : is_taxi_goal_state s = false) :
    (_taxi_transition_func m s a u1 u2).1 = fuel_stage s := by
  unfold _taxi_transition_func
  rw [if_pos hec, if_neg (by simp [hg])]
  dsimp only
  by_cases hd : (taxi_dispatch m (fuel_stage s) a (stuck_outcome m s u1 u2)).2 = true
  · rw [if_pos hd]
  · rw [if_neg hd]
    dsimp only
    rw [taxi_dispatch_snd_false (Bool.not_eq_true _ ▸ hd), hotswap_stage_self,
      goal_stage_of_not_goal (by rw [fuel_stage_goal_pred]; exact hg)]

lemma taxi_dispatch_pickup (m : AugmentedTaxi2OOMDP) (s : AugmentedTaxiState) (st : Bool) :
    taxi_dispatch m s "pickup" st = (agent_pickup s, true) := by
  unfold taxi_dispatch; simp

lemma taxi_dispatch_dropoff (m : AugmentedTaxi2OOMDP) (s : AugmentedTaxiState) (st : Bool) :
    taxi_dispatch m s "dropoff" st = (agent_dropoff s, true) := by
  unfold taxi_dispatch; simp

lemma taxi_dispatch_refuel (m : AugmentedTaxi2OOMDP) (s : AugmentedTaxiState) (st : Bool) :
    taxi_dispatch m s "refuel" st = (agent_refuel m s, true) := by
  unfold taxi_dispatch; simp

lemma taxi_dispatch_nav_stuck (m : AugmentedTaxi2OOMDP) (s : AugmentedTaxiState) (a : String)
    (ha : a = "up" ∨ a = "down" ∨ a = "left" ∨ a = "right") :
    taxi_dispatch m s a true = (s, false) := by
  rcases ha with rfl | rfl | rfl | rfl <;> (unfold taxi_dispatch; simp)

lemma transition_of_dispatch_noop {m : AugmentedTaxi2OOMDP} {s : AugmentedTaxiState}
    {a : String} {u1 u2 : ℚ} (hec : _error_check_ok s a = true)
    (hg : is_taxi_goal_state s = false)
    (hd : taxi_dispatch m (fuel_stage s) a (stuck_outcome m s u1 u2) = (fuel_stage s, false)) :
    _taxi_transition_func m s a u1 u2 = (fuel_stage s, some (fuel_stage s, false)) := by
  unfold _taxi_transition_func
  rw [if_pos hec, if_neg (by simp [hg])]
  dsimp only
  rw [hd]
  dsimp only
  rw [if_neg (by simp : ¬ false = true), hotswap_stage_self,
    goal_stage_of_not_goal (by rw [fuel_stage_goal_pred]; exact hg)]

lemma single_pass_ok_move (m : AugmentedTaxi2OOMDP) (s : AugmentedTaxiState) (dx dy : ℤ)
    (h : single_pass_ok s) : single_pass_ok (move_agent m s dx dy).1 := by
  obtain ⟨p, hp, hc⟩ := h
  by_cases hw : _is_wall_in_the_way m s dx dy = true
  · rw [move_agent_of_wall hw]; exact ⟨p, hp, hc⟩
  · have hw2 : _is_wall_in_the_way m s dx dy = false := Bool.not_eq_true _ ▸ hw
    have hps : (move_agent m s dx dy).1.passengers =
        [if p.in_taxi = 1 then { p with x := p.x + dx, y := p.y + dy } else p] := by
      simp [move_agent, hw2, _move_pass_in_taxi, hp]
    have hha : (move_agent m s dx dy).1.agent.has_passenger = s.agent.has_passenger :=
      move_agent_has m s dx dy
    rcases hc with ⟨h1, h2⟩ | ⟨h1, h2⟩
    · refine ⟨{ p with x := p.x + dx, y := p.y + dy }, ?_, Or.inl ⟨h1, ?_⟩⟩
      · rw [hps, if_pos h1]
      · rw [hha]; exact h2
    · refine ⟨p, ?_, Or.inr ⟨h1, ?_⟩⟩
      · rw [hps, if_neg h1]
      · rw [hha]; exact h2

lemma single_pass_ok_pickup (s : AugmentedTaxiState) (h : single_pass_ok s) :
    single_pass_ok (agent_pickup s) := by
  obtain ⟨p, hp, hc⟩ := h
  rcases hc with ⟨h1, h2⟩ | ⟨h1, h2⟩
  · have hns : agent_pickup s = s := by
      unfold agent_pickup
      rw [if_neg (by rw [h2]; exact one_ne_zero)]
    rw [hns]; exact ⟨p, hp, Or.inl ⟨h1, h2⟩⟩
  · unfold agent_pickup
    rw [if_pos h2]
    dsimp only
    by_cases hco : pass_at_agent s.agent p = true
    · refine ⟨{ p with in_taxi := 1 }, ?_, Or.inl ⟨rfl, ?_⟩⟩
      · rw [hp]; simp [hco]
      · rw [hp]; simp [hco]
    · refine ⟨p, ?_, Or.inr ⟨h1, ?_⟩⟩
      · rw [hp]; simp [hco]
      · rw [hp]; simp [hco, h2]

lemma single_pass_ok_dropoff (s : AugmentedTaxiState) (h : single_pass_ok s) :
    single_pass_ok (agent_dropoff s) := by
  obtain ⟨p, hp, hc⟩ := h
  rcases hc with ⟨h1, h2⟩ | ⟨h1, h2⟩
  · unfold agent_dropoff
    rw [if_pos h2]
    dsimp only
    refine ⟨{ p with in_taxi := 0 }, ?_, Or.inr ⟨zero_ne_one, ?_⟩⟩
    · rw [hp]; simp [h1]
    · rw [hp]; simp [h1]
  · have hns : agent_dropoff s = s := by
      unfold agent_dropoff
      rw [if_neg (by rw [h2]; exact zero_ne_one)]
    rw [hns]; exact ⟨p, hp, Or.inr ⟨h1, h2⟩⟩

lemma single_pass_ok_refuel (m : AugmentedTaxi2OOMDP) (s : AugmentedTaxiState)
    (h : single_pass_ok s) : single_pass_ok (agent_refuel m s) := by
  obtain ⟨p, hp, hc⟩ := h
  refine ⟨p, ?_, ?_⟩
  · rw [agent_refuel_passengers]; exact hp
  · rw [agent_refuel_has]; exact hc

lemma single_pass_ok_dispatch (m : AugmentedTaxi2OOMDP) (s : AugmentedTaxiState)
    (a : String) (st : Bool) (h : single_pass_ok s) :
    single_pass_ok (taxi_dispatch m s a st).1 := by
  unfold taxi_dispatch
  split_ifs <;> first
    | exact single_pass_ok_move m s _ _ h
    | exact single_pass_ok_dropoff s h
    | exact single_pass_ok_pickup s h
    | exact single_pass_ok_refuel m s h
    | exact h

lemma single_pass_ok_step {m : AugmentedTaxi2OOMDP} {s : AugmentedTaxiState}
    {a : String} {u1 u2 : ℚ} {r : AugmentedTaxiState} {b : Bool}
    (hstep : (_taxi_transition_func m s a u1 u2).2 = some (r, b))
    (h : single_pass_ok s) : single_pass_ok r := by
  obtain ⟨-, hcase⟩ := transition_result hstep
  rcases hcase with ⟨-, rfl, -⟩ | ⟨-, rfl⟩
  · exact h
  · have h1 : single_pass_ok (fuel_stage s) := by
      obtain ⟨p, hp, hc⟩ := h
      exact ⟨p, by rw [fuel_stage_passengers]; exact hp,
        by rw [fuel_stage_agent_has]; exact hc⟩
    have h2 := single_pass_ok_dispatch m (fuel_stage s) a (stuck_outcome m s u1 u2) h1
    obtain ⟨p, hp, hc⟩ := h2
    refine ⟨p, ?_, ?_⟩
    · rw [goal_stage_passengers, hotswap_stage_passengers]; exact hp
    · rw [goal_stage_agent, hotswap_stage_agent]; exact hc

lemma single_pass_ok_reach {m : AugmentedTaxi2OOMDP} {s0 s : AugmentedTaxiState}
    (hr : Reachable m s0 s) (h : single_pass_ok s0) : single_pass_ok s := by
  induction hr with
  | refl => exact h
  | step hr hstep ih => exact single_pass_ok_step hstep ih

lemma agent_in_bounds_move {m : AugmentedTaxi2OOMDP} {s : AugmentedTaxiState} {dx dy : ℤ}
    (h : agent_in_bounds m s)
    (hx : 1 ≤ s.agent.x + dx ∧ s.agent.x + dx ≤ m.width)
    (hy : 1 ≤ s.agent.y + dy ∧ s.agent.y + dy ≤ m.height) :
    agent_in_bounds m (move_agent m s dx dy).1 := by
  by_cases hw : _is_wall_in_the_way m s dx dy = true
  · rw [move_agent_of_wall hw]; exact h
  · have hw2 : _is_wall_in_the_way m s dx dy = false := Bool.not_eq_true _ ▸ hw
    refine ⟨?_, ?_, ?_, ?_⟩
    · rw [move_agent_x m s dx dy hw2]; exact hx.1
    · rw [move_agent_x m s dx dy hw2]; exact hx.2
    · rw [move_agent_y m s dx dy hw2]; exact hy.1
    · rw [move_agent_y m s dx dy hw2]; exact hy.2

lemma agent_in_bounds_dispatch (m : AugmentedTaxi2OOMDP) (s : AugmentedTaxiState)
    (a : String) (st : Bool) (h : agent_in_bounds m s) :
    agent_in_bounds m (taxi_dispatch m s a st).1 := by
  obtain ⟨hx1, hx2, hy1, hy2⟩ := h
  unfold taxi_dispatch
  split_ifs with c1 c2 c3 c4 c5 c6 c7
  · obtain ⟨-, hlt, -⟩ := c1
    exact agent_in_bounds_move ⟨hx1, hx2, hy1, hy2⟩ ⟨by omega, by omega⟩ ⟨by omega, by omega⟩
  · obtain ⟨-, hlt, -⟩ := c2
    exact agent_in_bounds_move ⟨hx1, hx2, hy1, hy2⟩ ⟨by omega, by omega⟩ ⟨by omega, by omega⟩
  · obtain ⟨-, hlt, -⟩ := c3
    exact agent_in_bounds_move ⟨hx1, hx2, hy1, hy2⟩ ⟨by omega, by omega⟩ ⟨by omega, by omega⟩
  · obtain ⟨-, hlt, -⟩ := c4
    exact agent_in_bounds_move ⟨hx1, hx2, hy1, hy2⟩ ⟨by omega, by omega⟩ ⟨by omega, by omega⟩
  · exact ⟨by simpa using hx1, by simpa using hx2, by simpa using hy1, by simpa using hy2⟩
  · exact ⟨by simpa using hx1, by simpa using hx2, by simpa using hy1, by simpa using hy2⟩
  · exact ⟨by simpa using hx1, by simpa using hx2, by simpa using hy1, by simpa using hy2⟩
  · exact ⟨hx1, hx2, hy1, hy2⟩

lemma agent_in_bounds_step {m : AugmentedTaxi2OOMDP} {s : AugmentedTaxiState}
    {a : String} {u1 u2 : ℚ} {r : AugmentedTaxiState} {b : Bool}
    (hstep : (_taxi_transition_func m s a u1 u2).2 = some (r, b))
    (h : agent_in_bounds m s) : agent_in_bounds m r := by
  obtain ⟨-, hcase⟩ := transition_result hstep
  rcases hcase with ⟨-, rfl, -⟩ | ⟨-, rfl⟩
  · exact h
  · have h1 : agent_in_bounds m (fuel_stage s) := by
      obtain ⟨a1, a2, a3, a4⟩ := h
      exact ⟨by simpa using a1, by simpa using a2, by simpa using a3, by simpa using a4⟩
    have h2 := agent_in_bounds_dispatch m (fuel_stage s) a (stuck_outcome m s u1 u2) h1
    obtain ⟨b1, b2, b3, b4⟩ := h2
    exact ⟨by simpa using b1, by simpa using b2, by simpa using b3, by simpa using b4⟩

lemma agent_in_bounds_reach {m : AugmentedTaxi2OOMDP} {s0 s : AugmentedTaxiState}
    (hr : Reachable m s0 s) (h : agent_in_bounds m s0) : agent_in_bounds m s := by
  induction hr with
  | refl => exact h
  | step hr hstep ih => exact agent_in_bounds_step hstep ih

lemma transition_hotswap {m : AugmentedTaxi2OOMDP} {s : AugmentedTaxiState}
    {a : String} {u1 u2 : ℚ} {r : AugmentedTaxiState} {b : Bool}
    (hstep : (_taxi_transition_func m s a u1 u2).2 = some (r, b)) :
    r.hotswap_stations =
      (if (_moved_off_of_hotswap_station s r).1 then
        s.hotswap_stations.eraseIdx (_moved_off_of_hotswap_station s r).2
      else s.hotswap_stations) := by
  obtain ⟨-, hcase⟩ := transition_result hstep
  rcases hcase with ⟨-, rfl, -⟩ | ⟨-, rfl⟩
  · rw [moved_off_self_false]
    simp
  · have hmo : _moved_off_of_hotswap_station s
        (goal_stage (hotswap_stage (fuel_stage s)
          (taxi_dispatch m (fuel_stage s) a (stuck_outcome m s u1 u2)).1)) =
      _moved_off_of_hotswap_station (fuel_stage s)
        (taxi_dispatch m (fuel_stage s) a (stuck_outcome m s u1 u2)).1 :=
      moved_off_congr (by simp) (by simp) (by simp) (by simp) (by simp)
    rw [hmo, goal_stage_hotswap]
    simp only [hotswap_stage]
    split
    · rw [taxi_dispatch_hotswap, fuel_stage_hotswap]
    · rw [taxi_dispatch_hotswap, fuel_stage_hotswap]

lemma transition_hotswap_len {m : AugmentedTaxi2OOMDP} {s : AugmentedTaxiState}
    {a : String} {u1 u2 : ℚ} {r : AugmentedTaxiState} {b : Bool}
    (hstep : (_taxi_transition_func m s a u1 u2).2 = some (r, b)) :
    r.hotswap_stations.length ≤ s.hotswap_stations.length := by
  rw [transition_hotswap hstep]
  split
  · exact List.length_eraseIdx_le _ _
  · exact le_refl _

lemma hotswap_len_reach {m : AugmentedTaxi2OOMDP} {s0 s : AugmentedTaxiState}
    (hr : Reachable m s0 s) :
    s.hotswap_stations.length ≤ s0.hotswap_stations.length := by
  induction hr with
  | refl => exact le_refl _
  | step hr hstep ih => exact le_trans (transition_hotswap_len hstep) ih

/-- Claim C1 is false as stated: on a non-terminal state with a valid action, the
transition can return the very input object (no fresh copy) and, with fuel
tracking active, the call decrements the fuel of the input state in place.
Here the blocked navigation action `down` at `y = 1` returns the aliased
object and the caller now holds a state with fuel four instead of five. -/
theorem spec_c1_counterexample :
    exS_fuel.is_terminal = false ∧
    _error_check_ok exS_fuel "down" = true ∧
    (_taxi_transition_func exM exS_fuel "down" 1 1).1 ≠ exS_fuel ∧
    (_taxi_transition_func exM exS_fuel "down" 1 1).2 =
      some ((_taxi_transition_func exM exS_fuel "down" 1 1).1, false) := by
  decide

/-- Claim C1 (amended): on a non-absorbing state with a valid action, the state the
caller holds after the call is the input with its fuel decremented in place
(unchanged when fuel tracking is off); pickup, dropoff and refuel always
return a fresh deep copy, but whenever the result is not fresh it is the very
object the caller passed in. -/
theorem spec_c1 (m : AugmentedTaxi2OOMDP) (s : AugmentedTaxiState) (a : String)
    (u1 u2 : ℚ) (hec : _error_check_ok s a = true)
    (hg : is_taxi_goal_state s = false) :
    (_taxi_transition_func m s a u1 u2).1 = fuel_stage s ∧
    (track_fuel s = true →
      (_taxi_transition_func m s a u1 u2).1.agent.fuel =
        s.agent.fuel.map (fun f => f - 1)) ∧
    (∀ r, (_taxi_transition_func m s a u1 u2).2 = some (r, false) →
      r = (_taxi_transition_func m s a u1 u2).1) ∧
    ((a = "pickup" ∨ a = "dropoff" ∨ a = "refuel") →
      (_taxi_transition_func m s a u1 u2).2.map Prod.snd = some true) := by
  refine ⟨@transition_caller m s a u1 u2 hec hg, ?_, ?_, ?_⟩
  · intro htf
    rw [@transition_caller m s a u1 u2 hec hg]
    unfold fuel_stage decrement_fuel
    rw [if_pos htf]
  · intro r hr
    exact transition_alias hr
  · intro ha
    unfold _taxi_transition_func
    rw [if_pos hec, if_neg (by simp [hg])]
    dsimp only
    rcases ha with rfl | rfl | rfl
    · rw [taxi_dispatch_pickup m (fuel_stage s) (stuck_outcome m s u1 u2)]
      rfl
    · rw [taxi_dispatch_dropoff m (fuel_stage s) (stuck_outcome m s u1 u2)]
      rfl
    · rw [taxi_dispatch_refuel m (fuel_stage s) (stuck_outcome m s u1 u2)]
      rfl

/-- Witness for C1 at a concrete input: the pickup action on the plain state
returns a fresh copy and leaves the fuel-free caller state unchanged. -/
theorem spec_c1_witness :
    (_taxi_transition_func exM exS_plain "pickup" 1 1).1 = fuel_stage exS_plain ∧
    (_taxi_transition_func exM exS_plain "pickup" 1 1).2.map Prod.snd = some true := by
  have h := spec_c1 exM exS_plain "pickup" 1 1 (by decide) (by decide)
  exact ⟨h.1, h.2.2.2 (Or.inl rfl)⟩

/-- Claim C2 is false as stated: the `is_terminal` flag alone does not make a state
absorbing.  This state has `is_terminal = true` but an undelivered passenger,
and the `up` action moves the agent instead of returning the state
unchanged. -/
theorem spec_c2_counterexample :
    exS_term.is_terminal = true ∧
    _error_check_ok exS_term "up" = true ∧
    Option.map Prod.fst (_taxi_transition_func exM exS_term "up" 1 1).2 ≠
      some exS_term := by
  decide

/-- Claim C2 (amended): the absorbing guard of the transition function is the goal
predicate, not the `is_terminal` flag: whenever every passenger sits at its
destination with `in_taxi = 0`, any valid action returns the same state
unchanged (and aliased), regardless of the flags. -/
theorem spec_c2 (m : AugmentedTaxi2OOMDP) (s : AugmentedTaxiState) (a : String)
    (u1 u2 : ℚ) (hec : _error_check_ok s a = true)
    (hg : is_taxi_goal_state s = true) :
    _taxi_transition_func m s a u1 u2 = (s, some (s, false)) := by
  unfold _taxi_transition_func
  rw [if_pos hec, if_pos hg]

/-- Witness for C2 at a concrete input: the goal-condition state is returned
unchanged by the `up` action even though its flags are down. -/
theorem spec_c2_witness :
    _taxi_transition_func exM exS_goal_cond "up" 1 1 =
      (exS_goal_cond, some (exS_goal_cond, false)) :=
  spec_c2 exM exS_goal_cond "up" 1 1 (by decide) (by decide)

/-- Claim C10 is false as stated: with `has_passenger = 1` but no passenger having
`in_taxi = 1`, the `has_passenger := 0` write sits inside the per-passenger
loop and never runs, so `has_passenger` stays one instead of being reset. -/
theorem spec_c10_counterexample :
    exS_drop.agent.has_passenger = 1 ∧ agent_dropoff exS_drop = exS_drop := by
  decide

/-- Claim C10 (amended): `agent_dropoff` changes only the `has_passenger` and
`in_taxi` attributes; with `has_passenger = 1` it sets `in_taxi := 0` on every
passenger with `in_taxi = 1`, and it resets `has_passenger` to zero exactly
when such a passenger exists; with `has_passenger` different from one it is a
no-op.  Coordinates, destinations, fuel, hotswap stations and the flags are
untouched. -/
theorem spec_c10 (s : AugmentedTaxiState) :
    (agent_dropoff s).agent.x = s.agent.x ∧
    (agent_dropoff s).agent.y = s.agent.y ∧
    (agent_dropoff s).agent.fuel = s.agent.fuel ∧
    (agent_dropoff s).hotswap_stations = s.hotswap_stations ∧
    (agent_dropoff s).is_terminal = s.is_terminal ∧
    (agent_dropoff s).is_goal = s.is_goal ∧
    (agent_dropoff s).passengers.map (fun p => (p.x, p.y, p.dest_x, p.dest_y)) =
      s.passengers.map (fun p => (p.x, p.y, p.dest_x, p.dest_y)) ∧
    ((agent_dropoff s).passengers =
      if s.agent.has_passenger = 1 then
        s.passengers.map (fun p => if p.in_taxi = 1 then { p with in_taxi := 0 } else p)
      else s.passengers) ∧
    ((agent_dropoff s).agent.has_passenger =
      if s.agent.has_passenger = 1 ∧ s.passengers.any (fun p => decide (p.in_taxi = 1)) = true
      then 0 else s.agent.has_passenger) := by
  refine ⟨agent_dropoff_agent_x s, agent_dropoff_agent_y s, agent_dropoff_fuel s,
    agent_dropoff_hotswap s, agent_dropoff_terminal s, agent_dropoff_goal_flag s,
    ?_, ?_, ?_⟩
  · by_cases h : s.agent.has_passenger = 1
    · unfold agent_dropoff
      rw [if_pos h]
      dsimp only
      rw [List.map_map]
      refine List.map_congr_left ?_
      intro p hp
      by_cases ht : p.in_taxi = 1 <;> simp [ht, Function.comp]
    · unfold agent_dropoff
      rw [if_neg h]
  · by_cases h : s.agent.has_passenger = 1
    · unfold agent_dropoff
      rw [if_pos h, if_pos h]
    · unfold agent_dropoff
      rw [if_neg h, if_neg h]
  · by_cases h : s.agent.has_passenger = 1
    · unfold agent_dropoff
      rw [if_pos h]
      dsimp only
      by_cases hany : s.passengers.any (fun p => decide (p.in_taxi = 1)) = true
      · rw [if_pos hany, if_pos ⟨h, hany⟩]
      · rw [if_neg hany, if_neg (fun hc => hany hc.2)]
    · unfold agent_dropoff
      rw [if_neg h, if_neg (fun hc => h hc.1)]

lemma moved_off_ne_nil {s next : AugmentedTaxiState}
    (h : (_moved_off_of_hotswap_station s next).1 = true) :
    s.hotswap_stations ≠ [] := by
  intro hnil
  unfold _moved_off_of_hotswap_station at h
  rw [hnil] at h
  simp at h

lemma transition_unfold_effect {m : AugmentedTaxi2OOMDP} {s : AugmentedTaxiState}
    {a : String} {u1 u2 : ℚ} {e : AugmentedTaxiState}
    (hec : _error_check_ok s a = true) (hg : is_taxi_goal_state s = false)
    (hd : taxi_dispatch m (fuel_stage s) a (stuck_outcome m s u1 u2) = (e, true)) :
    _taxi_transition_func m s a u1 u2 =
      (fuel_stage s, some (goal_stage (hotswap_stage (fuel_stage s) e), true)) := by
  unfold _taxi_transition_func
  rw [if_pos hec, if_neg (by simp [hg])]
  dsimp only
  rw [hd]
  rfl

/-- Claim C7: the transition and the reward function signal a `ValueError` exactly
when the action lies outside the active action set of the state (the
augmented seven-action set when fuel tracking is active, the base six-action
set otherwise); the state-type check always passes in this typed embedding.
The check precedes dispatch and the fuel decrement, so on error the caller
state is unchanged. -/
theorem spec_c7 (m : AugmentedTaxi2OOMDP) (s next : AugmentedTaxiState)
    (a : String) (u1 u2 : ℚ) :
    ((_taxi_transition_func m s a u1 u2).2 = none ↔ a ∉ active_actions s) ∧
    ((_taxi_transition_func m s a u1 u2).2 = none →
      (_taxi_transition_func m s a u1 u2).1 = s) ∧
    (_taxi_reward_func m s a next = none ↔ a ∉ active_actions s) := by
  by_cases hec : _error_check_ok s a = true
  · have hmem : a ∈ active_actions s := (error_check_iff s a).1 hec
    obtain ⟨r, b, hr⟩ := @transition_some_of_ok m s a u1 u2 hec
    refine ⟨?_, ?_, ?_⟩
    · refine ⟨fun h => ?_, fun h => (h hmem).elim⟩
      rw [h] at hr
      exact Option.noConfusion hr
    · intro h
      rw [h] at hr
      exact Option.noConfusion hr
    · unfold _taxi_reward_func
      rw [if_pos hec]
      exact ⟨fun h => (Option.some_ne_none _ h).elim, fun h => (h hmem).elim⟩
  · have hmem : a ∉ active_actions s := fun h => hec ((error_check_iff s a).2 h)
    have ht := @transition_none_of_bad m s a u1 u2 hec
    refine ⟨?_, ?_, ?_⟩
    · rw [ht]
      exact ⟨fun _ => hmem, fun _ => rfl⟩
    · intro h
      rw [ht]
    · unfold _taxi_reward_func
      rw [if_neg hec]
      exact ⟨fun _ => hmem, fun _ => rfl⟩

/-- Witness for C7 at a concrete input: the unknown action `fly` makes the
transition raise, and the caller state is untouched. -/
theorem spec_c7_witness :
    ((_taxi_transition_func exM exS_plain "fly" 1 1).2 = none ↔
      "fly" ∉ active_actions exS_plain) ∧
    (_taxi_transition_func exM exS_plain "fly" 1 1).1 = exS_plain :=
  ⟨(spec_c7 exM exS_plain exS_plain "fly" 1 1).1,
   (spec_c7 exM exS_plain exS_plain "fly" 1 1).2.1 (by decide)⟩

/-- Claim C5: the stuck outcome is the disjunction of the base slip draw and, on a
traffic cell, the traffic draw; a true stuck outcome turns the four
navigation actions into no-ops (only the in-place fuel decrement remains),
while pickup, dropoff and refuel dispatch identically whatever the draws
are. -/
theorem spec_c5 (m : AugmentedTaxi2OOMDP) (s : AugmentedTaxiState) (a : String)
    (u1 u2 v1 v2 : ℚ) (hec : _error_check_ok s a = true)
    (hg : is_taxi_goal_state s = false) :
    (stuck_outcome m s u1 u2 =
      (decide (u1 < m.slip_prob) ||
       ((at_traffic m s.agent.x s.agent.y).1 &&
        decide (u2 < (at_traffic m s.agent.x s.agent.y).2)))) ∧
    ((a = "up" ∨ a = "down" ∨ a = "left" ∨ a = "right") →
      stuck_outcome m s u1 u2 = true →
      _taxi_transition_func m s a u1 u2 = (fuel_stage s, some (fuel_stage s, false))) ∧
    ((a = "pickup" ∨ a = "dropoff" ∨ a = "refuel") →
      _taxi_transition_func m s a u1 u2 = _taxi_transition_func m s a v1 v2) := by
  refine ⟨?_, ?_, ?_⟩
  · unfold stuck_outcome
    rcases htr : at_traffic m s.agent.x s.agent.y with ⟨pres, p⟩
    dsimp only
    cases pres
    · simp
    · by_cases hu : u2 < p <;> simp [hu]
  · intro ha hst
    apply transition_of_dispatch_noop hec hg
    rw [hst]
    exact taxi_dispatch_nav_stuck m (fuel_stage s) a ha
  · intro ha
    rcases ha with rfl | rfl | rfl
    · rw [transition_unfold_effect hec hg
          (taxi_dispatch_pickup m (fuel_stage s) (stuck_outcome m s u1 u2)),
        transition_unfold_effect hec hg
          (taxi_dispatch_pickup m (fuel_stage s) (stuck_outcome m s v1 v2))]
    · rw [transition_unfold_effect hec hg
          (taxi_dispatch_dropoff m (fuel_stage s) (stuck_outcome m s u1 u2)),
        transition_unfold_effect hec hg
          (taxi_dispatch_dropoff m (fuel_stage s) (stuck_outcome m s v1 v2))]
    · rw [transition_unfold_effect hec hg
          (taxi_dispatch_refuel m (fuel_stage s) (stuck_outcome m s u1 u2)),
        transition_unfold_effect hec hg
          (taxi_dispatch_refuel m (fuel_stage s) (stuck_outcome m s v1 v2))]

/-- Witness for C5 at a concrete input: with slip probability one the agent is
stuck and `up` is a no-op, and pickup ignores the draws. -/
theorem spec_c5_witness :
    (stuck_outcome exM_slip exS_plain 0 0 =
      (decide ((0:ℚ) < exM_slip.slip_prob) ||
       ((at_traffic exM_slip exS_plain.agent.x exS_plain.agent.y).1 &&
        decide ((0:ℚ) < (at_traffic exM_slip exS_plain.agent.x exS_plain.agent.y).2)))) ∧
    _taxi_transition_func exM_slip exS_plain "up" 0 0 =
      (fuel_stage exS_plain, some (fuel_stage exS_plain, false)) ∧
    _taxi_transition_func exM_slip exS_plain "pickup" 0 0 =
      _taxi_transition_func exM_slip exS_plain "pickup" 1 1 := by
  have h := spec_c5 exM_slip exS_plain "up" 0 0 1 1 (by decide) (by decide)
  have h2 := spec_c5 exM_slip exS_plain "pickup" 0 0 1 1 (by decide) (by decide)
  exact ⟨h.1, h.2.1 (Or.inl rfl) (by decide), h2.2.2 (Or.inl rfl)⟩

/-- Claim C6: the reward-feature vector is `(toll_flag, hotswap_flag, step_cost_flag)`
with the step-cost flag always one, the toll flag raised exactly when tolls
exist and the agent moved off of a toll cell, the hotswap flag raised exactly
when a hotswap station was vacated (hence zero with no stations), and the
scalar reward is the dot product of the weight vector with the features. -/
theorem spec_c6 (m : AugmentedTaxi2OOMDP) (s next : AugmentedTaxiState)
    (a : String) (hec : _error_check_ok s a = true) :
    (compute_reward_features m s a next).2.2 = 1 ∧
    ((compute_reward_features m s a next).1 =
      if m.tolls.length ≠ 0 ∧ _moved_off_of_toll m s next = true then 1 else 0) ∧
    (m.tolls = [] → (compute_reward_features m s a next).1 = 0) ∧
    ((compute_reward_features m s a next).2.1 =
      if (_moved_off_of_hotswap_station s next).1 = true then 1 else 0) ∧
    (s.hotswap_stations = [] → (compute_reward_features m s a next).2.1 = 0) ∧
    (_taxi_reward_func m s a next =
      some (m.weights.1 * ((compute_reward_features m s a next).1 : ℚ) +
            m.weights.2.1 * ((compute_reward_features m s a next).2.1 : ℚ) +
            m.weights.2.2 * ((compute_reward_features m s a next).2.2 : ℚ))) := by
  refine ⟨rfl, ?_, ?_, ?_, ?_, ?_⟩
  · unfold compute_reward_features
    dsimp only
    by_cases h1 : m.tolls.length ≠ 0 <;>
      by_cases h2 : _moved_off_of_toll m s next = true <;>
      simp [h1, h2]
  · intro h
    unfold compute_reward_features
    simp [h]
  · unfold compute_reward_features
    dsimp only
    by_cases hmo : (_moved_off_of_hotswap_station s next).1 = true
    · have hne := moved_off_ne_nil hmo
      have hl : s.hotswap_stations.length ≠ 0 :=
        fun hl0 => hne (List.length_eq_zero.mp hl0)
      simp [hl, hmo]
    · simp [hmo]
  · intro h
    unfold compute_reward_features
    simp [h]
  · unfold _taxi_reward_func
    rw [if_pos hec]

/-- Witness for C6 at a concrete input: features and scalar reward of the
plain state under `up`. -/
theorem spec_c6_witness :
    (compute_reward_features exM exS_plain "up" exS_plain).2.2 = 1 ∧
    _taxi_reward_func exM exS_plain "up" exS_plain =
      some (exM.weights.1 * ((compute_reward_features exM exS_plain "up" exS_plain).1 : ℚ) +
            exM.weights.2.1 * ((compute_reward_features exM exS_plain "up" exS_plain).2.1 : ℚ) +
            exM.weights.2.2 * ((compute_reward_features exM exS_plain "up" exS_plain).2.2 : ℚ)) := by
  have h := spec_c6 exM exS_plain exS_plain "up" (by decide)
  exact ⟨h.1, h.2.2.2.2.2⟩

/-- Claim C4 is false as stated: a non-terminal state that already satisfies the goal
condition is returned unchanged with its flags still down, so the returned
state has every passenger delivered yet `is_terminal = is_goal = false`. -/
theorem spec_c4_counterexample :
    exS_goal_cond.is_terminal = false ∧
    exS_goal_cond.is_goal = false ∧
    _error_check_ok exS_goal_cond "up" = true ∧
    is_taxi_goal_state exS_goal_cond = true ∧
    Option.map Prod.fst (_taxi_transition_func exM exS_goal_cond "up" 1 1).2 =
      some exS_goal_cond := by
  decide

/-- Claim C4 (amended): for a non-terminal state on which the goal condition does not
already hold, the state returned by any valid action has both flags raised iff
every passenger in it sits at its destination with `in_taxi = 0`. -/
theorem spec_c4 (m : AugmentedTaxi2OOMDP) (s : AugmentedTaxiState) (a : String)
    (u1 u2 : ℚ) (r : AugmentedTaxiState) (b : Bool)
    (hterm : s.is_terminal = false) (hg : is_taxi_goal_state s = false)
    (hstep : (_taxi_transition_func m s a u1 u2).2 = some (r, b)) :
    ((r.is_terminal = true ∧ r.is_goal = true) ↔ is_taxi_goal_state r = true) := by
  obtain ⟨-, hcase⟩ := transition_result hstep
  rcases hcase with ⟨hgt, -, -⟩ | ⟨-, rfl⟩
  · rw [hg] at hgt
    exact Bool.noConfusion hgt
  · set n2 := hotswap_stage (fuel_stage s)
      (taxi_dispatch m (fuel_stage s) a (stuck_outcome m s u1 u2)).1 with hn2
    constructor
    · rintro ⟨ht, -⟩
      by_cases hgn : is_taxi_goal_state n2 = true
      · rw [is_taxi_goal_congr (goal_stage_passengers n2)]
        exact hgn
      · have hrr : goal_stage n2 = n2 := goal_stage_of_not_goal (Bool.not_eq_true _ ▸ hgn)
        rw [hrr] at ht
        have hnt : n2.is_terminal = false := by
          rw [hn2, hotswap_stage_terminal, taxi_dispatch_terminal, fuel_stage_terminal, hterm]
        rw [hnt] at ht
        exact Bool.noConfusion ht
    · intro hgr
      have hgn : is_taxi_goal_state n2 = true := by
        rw [← is_taxi_goal_congr (goal_stage_passengers n2)]
        exact hgr
      unfold goal_stage
      rw [if_pos hgn]
      exact ⟨rfl, rfl⟩

/-- Witness for C4 at a concrete input: from the plain state, `up` yields a
state with an undelivered passenger, so both sides of the equivalence are
false. -/
theorem spec_c4_witness :
    (((⟨⟨1, 2, 0, none⟩, [⟨2, 2, 3, 3, 0⟩], [], false, false⟩ :
        AugmentedTaxiState).is_terminal = true ∧
      (⟨⟨1, 2, 0, none⟩, [⟨2, 2, 3, 3, 0⟩], [], false, false⟩ :
        AugmentedTaxiState).is_goal = true) ↔
     is_taxi_goal_state ⟨⟨1, 2, 0, none⟩, [⟨2, 2, 3, 3, 0⟩], [], false, false⟩ = true) :=
  spec_c4 exM exS_plain "up" 1 1
    ⟨⟨1, 2, 0, none⟩, [⟨2, 2, 3, 3, 0⟩], [], false, false⟩ true
    (by decide) (by decide) (by decide)

/-- Claim C3 is false as stated: the pickup loop has no break and does not test
`in_taxi`, so with two passengers co-located with the agent it sets
`in_taxi = 1` on both of them, not only on the first eligible one. -/
theorem spec_c3_counterexample :
    exS_two_pass.agent.has_passenger = 0 ∧
    exS_two_pass.passengers[1]? = some ⟨1, 1, 2, 2, 0⟩ ∧
    (agent_pickup exS_two_pass).passengers[1]? = some ⟨1, 1, 2, 2, 1⟩ := by
  decide

/-- Claim C3 (amended): with `has_passenger = 0`, pickup sets `in_taxi = 1` on every
co-located passenger (regardless of its `in_taxi` value) and raises
`has_passenger` exactly when one exists; the count invariant
`countP (in_taxi = 1) = has_passenger ≤ 1` holds in every state reachable from
a well-formed initial state with a single passenger. -/
theorem spec_c3 :
    (∀ s : AugmentedTaxiState, s.agent.has_passenger = 0 →
      (agent_pickup s).passengers = s.passengers.map
        (fun p => if pass_at_agent s.agent p then { p with in_taxi := 1 } else p) ∧
      (agent_pickup s).agent.has_passenger =
        (if s.passengers.any (fun p => pass_at_agent s.agent p) then 1 else 0)) ∧
    (∀ (m : AugmentedTaxi2OOMDP) (s0 s : AugmentedTaxiState), Reachable m s0 s →
      s0.passengers.length = 1 →
      (s0.passengers.countP (fun p => decide (p.in_taxi = 1)) : ℤ) =
        s0.agent.has_passenger →
      (s.passengers.countP (fun p => decide (p.in_taxi = 1)) : ℤ) =
        s.agent.has_passenger ∧
      s.passengers.countP (fun p => decide (p.in_taxi = 1)) ≤ 1) := by
  constructor
  · intro s h
    unfold agent_pickup
    rw [if_pos h]
    dsimp only
    refine ⟨rfl, ?_⟩
    split
    · rfl
    · exact h
  · intro m s0 s hr hlen hcnt
    have h0 : single_pass_ok s0 := by
      obtain ⟨p, hp⟩ := List.length_eq_one.mp hlen
      rw [hp] at hcnt
      by_cases ht : p.in_taxi = 1
      · refine ⟨p, hp, Or.inl ⟨ht, ?_⟩⟩
        simp [ht] at hcnt
        exact hcnt.symm
      · refine ⟨p, hp, Or.inr ⟨ht, ?_⟩⟩
        simp [ht] at hcnt
        exact hcnt.symm
    obtain ⟨p, hp, hc⟩ := single_pass_ok_reach hr h0
    rw [hp]
    rcases hc with ⟨h1, h2⟩ | ⟨h1, h2⟩
    · rw [h2]
      constructor
      · simp [h1]
      · exact List.countP_le_length _
    · rw [h2]
      constructor
      · simp [h1]
      · exact List.countP_le_length _

/-- Witness for C3 at a concrete input: pickup on the plain state, and the
invariant at the reflexive end of a trajectory. -/
theorem spec_c3_witness :
    ((agent_pickup exS_plain).passengers = exS_plain.passengers.map
      (fun p => if pass_at_agent exS_plain.agent p then { p with in_taxi := 1 } else p)) ∧
    ((exS_plain.passengers.countP (fun p => decide (p.in_taxi = 1)) : ℤ) =
      exS_plain.agent.has_passenger) :=
  ⟨(spec_c3.1 exS_plain (by decide)).1,
   (spec_c3.2 exM exS_plain exS_plain (Reachable.refl exS_plain) (by decide) (by decide)).1⟩

/-- Claim C8: along a transition, the hotswap list of the result is the input list
with the first vacated station deleted when the agent moved off of one, and
the input list otherwise; no station is ever added, so the length is
non-increasing along any trajectory. -/
theorem spec_c8 :
    (∀ (m : AugmentedTaxi2OOMDP) (s : AugmentedTaxiState) (a : String)
        (u1 u2 : ℚ) (r : AugmentedTaxiState) (b : Bool),
      (_taxi_transition_func m s a u1 u2).2 = some (r, b) →
      r.hotswap_stations =
        (if (_moved_off_of_hotswap_station s r).1 then
          s.hotswap_stations.eraseIdx (_moved_off_of_hotswap_station s r).2
        else s.hotswap_stations) ∧
      r.hotswap_stations.length ≤ s.hotswap_stations.length) ∧
    (∀ (m : AugmentedTaxi2OOMDP) (s0 s : AugmentedTaxiState), Reachable m s0 s →
      s.hotswap_stations.length ≤ s0.hotswap_stations.length) := by
  refine ⟨?_, ?_⟩
  · intro m s a u1 u2 r b hstep
    exact ⟨transition_hotswap hstep, transition_hotswap_len hstep⟩
  · intro m s0 s hr
    exact hotswap_len_reach hr

/-- Witness for C8 at a concrete input: moving up off the station at `(1, 1)`
deletes it. -/
theorem spec_c8_witness :
    (exS_hot_next.hotswap_stations =
      (if (_moved_off_of_hotswap_station exS_hot exS_hot_next).1 then
        exS_hot.hotswap_stations.eraseIdx
          (_moved_off_of_hotswap_station exS_hot exS_hot_next).2
      else exS_hot.hotswap_stations) ∧
    exS_hot_next.hotswap_stations.length ≤ exS_hot.hotswap_stations.length) ∧
    exS_hot.hotswap_stations.length ≤ exS_hot.hotswap_stations.length :=
  ⟨spec_c8.1 exM exS_hot "up" 1 1 exS_hot_next true (by decide),
   spec_c8.2 exM exS_hot exS_hot (Reachable.refl exS_hot)⟩

/-- Claim C9: the bounds invariant on the agent coordinates is preserved along every
trajectory; a wall-blocked move returns the input object unchanged, and a
navigation action whose destination leaves the grid leaves the agent position
unchanged (no clamping). -/
theorem spec_c9 :
    (∀ (m : AugmentedTaxi2OOMDP) (s0 s : AugmentedTaxiState), Reachable m s0 s →
      agent_in_bounds m s0 → agent_in_bounds m s) ∧
    (∀ (m : AugmentedTaxi2OOMDP) (s : AugmentedTaxiState) (dx dy : ℤ),
      _is_wall_in_the_way m s dx dy = true → move_agent m s dx dy = (s, false)) ∧
    (∀ (m : AugmentedTaxi2OOMDP) (s : AugmentedTaxiState) (a : String)
        (u1 u2 : ℚ) (r : AugmentedTaxiState) (b : Bool),
      (_taxi_transition_func m s a u1 u2).2 = some (r, b) →
      ((a = "up" ∧ ¬ s.agent.y < m.height) ∨ (a = "down" ∧ ¬ 1 < s.agent.y) ∨
       (a = "right" ∧ ¬ s.agent.x < m.width) ∨ (a = "left" ∧ ¬ 1 < s.agent.x)) →
      r.agent.x = s.agent.x ∧ r.agent.y = s.agent.y) := by
  refine ⟨?_, ?_, ?_⟩
  · intro m s0 s hr h
    exact agent_in_bounds_reach hr h
  · intro m s dx dy hw
    exact move_agent_of_wall hw
  · intro m s a u1 u2 r b hstep hcond
    obtain ⟨-, hcase⟩ := transition_result hstep
    rcases hcase with ⟨-, rfl, -⟩ | ⟨-, rfl⟩
    · exact ⟨rfl, rfl⟩
    · have hd : taxi_dispatch m (fuel_stage s) a (stuck_outcome m s u1 u2) =
          (fuel_stage s, false) := by
        rcases hcond with ⟨rfl, hb⟩ | ⟨rfl, hb⟩ | ⟨rfl, hb⟩ | ⟨rfl, hb⟩ <;>
          (unfold taxi_dispatch; simp [hb])
      rw [hd]
      constructor <;> simp

/-- Witness for C9 at a concrete input: reflexive reachability keeps the plain
state in bounds, the wall between `(1, 1)` and `(1, 2)` blocks `up`, and the
blocked `down` action at the bottom row leaves the position unchanged. -/
theorem spec_c9_witness :
    agent_in_bounds exM exS_plain ∧
    move_agent exM_wall exS_plain 0 1 = (exS_plain, false) ∧
    (exS_plain.agent.x = exS_plain.agent.x ∧ exS_plain.agent.y = exS_plain.agent.y) :=
  ⟨spec_c9.1 exM exS_plain exS_plain (Reachable.refl exS_plain)
      ⟨by decide, by decide, by decide, by decide⟩,
   spec_c9.2.1 exM_wall exS_plain 0 1 (by decide),
   spec_c9.2.2 exM exS_plain "down" 1 1 exS_plain false (by decide)
     (Or.inr (Or.inl ⟨rfl, by decide⟩))⟩
